import Mathlib

set_option maxRecDepth 8000

/-! # Shallow embedding of the AccountingNews relevance/priority/search core

Text is modelled as `String` / `List Char`; Python integers are `Nat`/`Int`;
the float arithmetic of the priority formula is modelled exactly over `ℚ`;
timestamps are integer epoch seconds, with the ambient clock (Python's
`datetime.utcnow()`) passed as an explicit `now` parameter.  Python dicts
are insertion-ordered association lists (`PyDict`). -/

/-- Python whitespace (`str.split()`, `str.strip()`, regex `\s`), ASCII range. -/
def pyIsSpace (c : Char) : Bool :=
  c == ' ' || c == '\t' || c == '\n' || c == '\r' || c == '\x0b' || c == '\x0c'

/-- Python `str.lower` on one character: ASCII letters plus the Latin-1
uppercase block (covers every accented letter in the keyword tables). -/
def pyLowerChar (c : Char) : Char :=
  if 'A' ≤ c ∧ c ≤ 'Z' then Char.ofNat (c.toNat + 32)
  else if 'À' ≤ c ∧ c ≤ 'Þ' ∧ c ≠ '×' then Char.ofNat (c.toNat + 32)
  else c

/-- Python `str.lower`. -/
def pyLower (l : List Char) : List Char := l.map pyLowerChar

/-- Python `str.strip()`. -/
def pyStrip (l : List Char) : List Char :=
  ((l.dropWhile pyIsSpace).reverse.dropWhile pyIsSpace).reverse

/-- Python substring test `needle in hay`. -/
def isSubstr (needle hay : List Char) : Bool :=
  hay.tails.any (fun t => needle.isPrefixOf t)

/-- A stable insert for descending order on an integer key: `x` is placed
before the first element whose key is `≤ key x`, so an element inserted
later (coming earlier in the original list, see `sortDesc`) precedes
elements of equal key. -/
def insertDesc (key : α → Int) (x : α) : List α → List α
  | [] => [x]
  | y :: ys => if key x < key y then y :: insertDesc key x ys else x :: y :: ys

/-- Stable sort by an integer key, descending: the extensional behaviour of
CPython's stable `list.sort(key=…, reverse=True)`. -/
def sortDesc (key : α → Int) : List α → List α
  | [] => []
  | x :: xs => insertDesc key x (sortDesc key xs)

/-! ## Python dict model (insertion-ordered association list) -/

/-- Values stored in the feed-item dicts. -/
inductive PyVal where
  | str (s : String)
  | int (n : Int)
  | strList (l : List String)
  | time (t : Int)
  | none
deriving DecidableEq

/-- A Python dict: insertion-ordered key/value pairs. -/
abbrev PyDict := List (String × PyVal)

/-- `d[k]` lookup (first entry; a genuine dict has no duplicate keys). -/
def dictGet (m : PyDict) (k : String) : Option PyVal :=
  (m.find? (fun p => p.1 == k)).map (·.2)

/-- `d[k] = v` / one step of `dict.update`: overwrite an existing key in
place, else append at the end (CPython insertion-order semantics). -/
def dictSet (m : PyDict) (k : String) (v : PyVal) : PyDict :=
  if m.any (fun p => p.1 == k) then m.map (fun p => if p.1 == k then (k, v) else p)
  else m ++ [(k, v)]

/-- `item.get(k, default)` for the text fields (the pipeline stores strings
under these keys). -/
def getStr (m : PyDict) (k : String) (default : String) : String :=
  match dictGet m k with
  | some (PyVal.str s) => s
  | _ => default

/-- `item.get(k, default)` for integer fields. -/
def getInt (m : PyDict) (k : String) (default : Int) : Int :=
  match dictGet m k with
  | some (PyVal.int n) => n
  | _ => default

/-- `item.get('pub_date')`: an optional timestamp. -/
def getTime (m : PyDict) (k : String) : Option Int :=
  match dictGet m k with
  | some (PyVal.time t) => some t
  | _ => Option.none

/-! ## `app/libs/priority_scorer.py` -/

namespace PriorityScorer

/-- `PriorityScorer.TAX_REFORM_KEYWORDS` (insertion order preserved). -/
def TAX_REFORM_KEYWORDS : List (String × Nat) :=
  [("reforma tributária", 100), ("reforma tributaria", 100), ("ibs", 95), ("cbs", 95),
   ("imposto único", 90), ("imposto unico", 90), ("iva brasileiro", 90), ("iva", 85),
   ("pec 45", 85), ("pec 110", 85), ("emenda constitucional", 80), ("proposta de emenda", 80),
   ("lei complementar", 75), ("codigo tributario", 75), ("código tributário", 75),
   ("icms", 70), ("iss", 70), ("pis", 65), ("cofins", 65), ("simples nacional", 60),
   ("regime tributário", 60), ("regime tributario", 60), ("tributação", 55),
   ("tributacao", 55), ("arrecadação", 55), ("arrecadacao", 55),
   ("imposto", 40), ("tributo", 40), ("receita federal", 35),
   ("ministério da fazenda", 35), ("ministerio da fazenda", 35), ("fisco", 30),
   ("contribuinte", 25)]

/-- `PriorityScorer.SOURCE_MULTIPLIERS`. -/
def SOURCE_MULTIPLIERS : List (String × ℚ) :=
  [("receita federal", 1.0), ("ministério da fazenda", 1.0), ("ministerio da fazenda", 1.0),
   ("senado federal", 0.95), ("câmara dos deputados", 0.95), ("camara dos deputados", 0.95),
   ("portal da transparência", 0.85), ("portal da transparencia", 0.85),
   ("governo federal", 0.8), ("congresso nacional", 0.9)]

/-- Keyword lists of `PriorityScorer.CATEGORIES`, in dict insertion order. -/
def KW_tax_reform : List String :=
  ["reforma tributária", "reforma tributaria", "ibs", "cbs", "pec 45", "pec 110"]

def KW_legislation : List String :=
  ["lei", "emenda", "proposta", "projeto", "medida provisória", "medida provisoria"]

def KW_economy : List String :=
  ["economia", "pib", "inflação", "inflacao", "mercado", "investimento"]

def KW_regulation : List String :=
  ["regulamentação", "regulamentacao", "norma", "instrução", "instrucao", "portaria"]

/-- `PriorityScorer.CATEGORIES` (the `general` entry has no keywords). -/
def CATEGORIES : List (String × List String) :=
  [("tax_reform", KW_tax_reform), ("legislation", KW_legislation),
   ("economy", KW_economy), ("regulation", KW_regulation), ("general", [])]

/-- One char of `re.sub(r'[^a-záàâãéèêíìîóòôõúùûç\s]', ' ', text)`:
characters outside the letter class and whitespace become spaces. -/
def scrubChar (c : Char) : Char :=
  if ('a' ≤ c ∧ c ≤ 'z')
      ∨ ['á', 'à', 'â', 'ã', 'é', 'è', 'ê', 'í', 'ì', 'î', 'ó', 'ò', 'ô', 'õ',
         'ú', 'ù', 'û', 'ç'].contains c
      ∨ pyIsSpace c then c else ' '

/-- `re.sub(r'\s+', ' ', text)`: collapse each maximal whitespace run to one space. -/
def collapseSpaces : List Char → List Char
  | [] => []
  | [c] => [if pyIsSpace c then ' ' else c]
  | c :: d :: rest =>
    if pyIsSpace c ∧ pyIsSpace d then collapseSpaces (d :: rest)
    else (if pyIsSpace c then ' ' else c) :: collapseSpaces (d :: rest)

/-- The text normalisation inside `calculate_relevance_score`: lowercase the
combined text, blank out special characters, collapse whitespace, strip. -/
def psNormalize (s : String) : List Char :=
  pyStrip (collapseSpaces ((pyLower s.toList).map scrubChar))

/-- `PriorityScorer.calculate_relevance_score` (priority_scorer.py:75-106). -/
def calculate_relevance_score (title description : String) (content : String) : Nat :=
  let full_text := psNormalize (title ++ " " ++ description ++ " " ++ content)
  let matched := TAX_REFORM_KEYWORDS.filter (fun kw => isSubstr kw.1.toList full_text)
  let score := (matched.map (·.2)).sum
  let score := if matched.length > 1 then score + matched.length * 5 else score
  let title_lower := pyLower title.toList
  let score := score + 20 * matched.countP (fun kw => isSubstr kw.1.toList title_lower)
  min score 100

/-- The source-multiplier lookup of `calculate_priority`: first table entry
whose key is a substring of the lowercased source name, default `1.0`. -/
def source_multiplier_of (source_name : String) : ℚ :=
  match SOURCE_MULTIPLIERS.find?
      (fun p => isSubstr p.1.toList (pyLower source_name.toList)) with
  | some p => p.2
  | Option.none => 1.0

/-- `credibility_factor = 0.7 + (source_credibility / 100) * 0.6`. -/
def credibility_factor (source_credibility : Int) : ℚ :=
  0.7 + ((source_credibility : ℚ) / 100) * 0.6

/-- The recency bonus of `calculate_priority`; `days_old` is the whole-day
floor of the timestamp difference (Python `timedelta.days`). -/
def recency_bonus_of (now : Int) (pub_date : Option Int) : ℚ :=
  match pub_date with
  | Option.none => 0
  | some pd =>
    let days_old := Int.fdiv (now - pd) 86400
    if days_old ≤ 1 then 10 else if days_old ≤ 7 then 5 else if days_old ≤ 30 then 2 else 0

/-- `final_score = (relevance * source_multiplier * credibility_factor) + recency_bonus`. -/
def priority_final_score (title description content : String) (source_credibility : Int)
    (source_name : String) (pub_date : Option Int) (now : Int) : ℚ :=
  ((calculate_relevance_score title description content : ℚ) *
      source_multiplier_of source_name * credibility_factor source_credibility) +
    recency_bonus_of now pub_date

/-- `PriorityScorer.calculate_priority` (priority_scorer.py:108-152). -/
def calculate_priority (title description content : String) (source_credibility : Int)
    (source_name : String) (pub_date : Option Int) (now : Int) : String :=
  let final_score := priority_final_score title description content source_credibility
    source_name pub_date now
  if final_score ≥ 80 then "high" else if final_score ≥ 50 then "medium" else "low"

/-- Ordering of the three priority levels, `low < medium < high`. -/
def priority_rank (p : String) : Nat :=
  if p = "high" then 2 else if p = "medium" then 1 else 0

/-- `PriorityScorer.extract_keywords` (lowercases the combined text only). -/
def extract_keywords (title description content : String) : List String :=
  let full_text := pyLower (title ++ " " ++ description ++ " " ++ content).toList
  (TAX_REFORM_KEYWORDS.filter (fun kw => isSubstr kw.1.toList full_text)).map (·.1)

/-- Whether some keyword of the list occurs in the lowercased combined text
(the per-category check of `categorize_content`). -/
def category_keyword_match (keywords : List String) (title description content : String) : Bool :=
  keywords.any
    (fun kw => isSubstr kw.toList (pyLower (title ++ " " ++ description ++ " " ++ content).toList))

/-- `PriorityScorer.categorize_content` (priority_scorer.py:167-182): first
category in table order with a keyword match, skipping `general`; fallback
`general`. -/
def categorize_content (title description content : String) : String :=
  match CATEGORIES.find?
      (fun p => !(p.1 == "general") && category_keyword_match p.2 title description content) with
  | some p => p.1
  | Option.none => "general"

/-- The enrichment of one item inside `score_batch`: `item.copy()` followed by
`update` with the four computed keys. -/
def enhance_item (now : Int) (item : PyDict) : PyDict :=
  let title := getStr item "title" ""
  let description := getStr item "description" ""
  let content := getStr item "content" ""
  let relevance_score := calculate_relevance_score title description content
  let priority := calculate_priority title description content
    (getInt item "source_credibility" 70) (getStr item "source_name" "")
    (getTime item "pub_date") now
  let keywords := extract_keywords title description content
  let category := categorize_content title description content
  dictSet (dictSet (dictSet (dictSet item
    "relevance_score" (PyVal.int relevance_score))
    "priority" (PyVal.str priority))
    "keywords" (PyVal.strList keywords))
    "category" (PyVal.str category)

/-- `PriorityScorer.score_batch` (priority_scorer.py:184-230): the loop maps
`enhance_item` over the list; the input dicts are copied, never mutated. -/
def score_batch (now : Int) (items : List PyDict) : List PyDict :=
  items.map (enhance_item now)

end PriorityScorer

/-! ## `app/libs/content_filter.py` -/

namespace TaxReformContentFilter

/-- `FilterResult` dataclass. -/
structure FilterResult where
  is_relevant : Bool
  relevance_score : Int
  matched_keywords : List String
  filter_reason : Option String
deriving DecidableEq

def primary_keywords : List String :=
  ["reforma tributária", "reforma tributaria", "ibs", "cbs"]

def secondary_keywords : List String :=
  ["imposto sobre bens e serviços", "contribuição sobre bens e serviços",
   "sistema tributário nacional", "código tributário nacional",
   "simplificação tributária", "unificação de impostos",
   "icms", "iss", "pis", "cofins", "ministério da fazenda", "receita federal",
   "congresso nacional", "proposta de emenda constitucional", "pec",
   "emenda constitucional", "tributação", "arrecadação"]

def exclusion_keywords : List String :=
  ["esporte", "futebol", "música", "entretenimento", "celebridade", "novela",
   "filme", "show", "crime", "acidente", "trânsito", "meteorologia", "tempo", "chuva"]

/-- The accent folding of `normalize_text` (the chained `re.sub` calls). -/
def accentFold (c : Char) : Char :=
  if ['à', 'á', 'â', 'ã', 'ä', 'å'].contains c then 'a'
  else if ['è', 'é', 'ê', 'ë'].contains c then 'e'
  else if ['ì', 'í', 'î', 'ï'].contains c then 'i'
  else if ['ò', 'ó', 'ô', 'õ', 'ö'].contains c then 'o'
  else if ['ù', 'ú', 'û', 'ü'].contains c then 'u'
  else if c = 'ç' then 'c' else c

/-- `TaxReformContentFilter.normalize_text`: lowercase, strip, fold accents. -/
def normalize_text (s : String) : List Char :=
  (pyStrip (pyLower s.toList)).map accentFold

/-- Python regex `\w` (word character); all keywords start and end with one. -/
def isWordChar (c : Char) : Bool := c.isAlphanum || c == '_'

/-- A `\b` word boundary next to a word character of the keyword: the
neighbouring character (if any) must not be a word character. -/
def nonWordBoundary : Option Char → Bool
  | Option.none => true
  | some p => !isWordChar p

/-- Fuelled scan for `len(re.findall(r'\b' + kw + r'\b', text))`: leftmost,
non-overlapping occurrences of `kw` whose neighbours are not word
characters.  `fuel` only has to dominate the text length. -/
def countOccF (kw : List Char) : Nat → Option Char → List Char → Nat
  | 0, _, _ => 0
  | _, _, [] => 0
  | fuel + 1, prev, c :: rest =>
    if !kw.isEmpty && kw.isPrefixOf (c :: rest) && nonWordBoundary prev
        && nonWordBoundary ((c :: rest).drop kw.length).head? then
      1 + countOccF kw fuel kw.getLast? ((c :: rest).drop kw.length)
    else
      countOccF kw fuel (some c) rest

/-- Number of word-bounded occurrences of `kw` in `text`. -/
def countOcc (kw text : List Char) : Nat := countOccF kw text.length Option.none text

/-- `TaxReformContentFilter.count_keyword_matches`: keyword → positive match
count, in keyword-list order. -/
def count_keyword_matches (text : String) (keywords : List String) : List (String × Nat) :=
  let normalized_text := normalize_text text
  (keywords.map (fun kw => (kw, countOcc (normalize_text kw) normalized_text))).filter
    (fun p => p.2 > 0)

/-- `TaxReformContentFilter.calculate_relevance_score` (content_filter.py:85-108). -/
def calculate_relevance_score (primary_matches secondary_matches exclusion_matches :
    List (String × Nat)) : Int :=
  let primary_score := (primary_matches.map (fun p => (p.2 : Int) * 20)).sum
  let secondary_score := (secondary_matches.map (fun p => (p.2 : Int) * 5)).sum
  let exclusion_penalty := (exclusion_matches.map (fun p => (p.2 : Int) * 10)).sum
  let primary_score := if primary_matches.length > 1 then primary_score + 15 else primary_score
  let final_score := primary_score + secondary_score - exclusion_penalty
  max 0 (min 100 final_score)

def min_score_threshold : Int := 15

/-- The combined text `f"{title or ''} {description or ''} {content or ''}"`. -/
def admission_full_text (title : String) (description content : Option String) : String :=
  title ++ " " ++ description.getD "" ++ " " ++ content.getD ""

/-- `TaxReformContentFilter.filter_content` (content_filter.py:110-157). -/
def filter_content (title : String) (description content : Option String) : FilterResult :=
  let full_text := admission_full_text title description content
  if pyStrip full_text.toList = [] then
    ⟨false, 0, [], some "No content to analyze"⟩
  else
    let primary_matches := count_keyword_matches full_text primary_keywords
    let secondary_matches := count_keyword_matches full_text secondary_keywords
    let exclusion_matches := count_keyword_matches full_text exclusion_keywords
    let relevance_score := calculate_relevance_score primary_matches secondary_matches
      exclusion_matches
    let has_primary_keyword := decide (primary_matches.length > 0)
    let is_relevant := has_primary_keyword && decide (relevance_score ≥ min_score_threshold)
    let all_matched := primary_matches.map (·.1) ++ secondary_matches.map (·.1)
    let filter_reason :=
      if is_relevant then Option.none
      else if !has_primary_keyword then some "No tax reform keywords found"
      else if relevance_score < min_score_threshold then
        some ("Low relevance score: " ++ toString relevance_score)
      else Option.none
    ⟨is_relevant, relevance_score, all_matched, filter_reason⟩

/-- The sort key of `filter_items_list`: `x.get('relevance_score', 0)`. -/
def relevance_key (item : PyDict) : Int := getInt item "relevance_score" 0

/-- The loop body of `filter_items_list`: survivors, in input order, each
with `relevance_score` and `matched_keywords` written into the dict. -/
def relevant_enriched (items : List PyDict) : List PyDict :=
  items.filterMap (fun item =>
    let fr := filter_content (getStr item "title" "")
      (some (getStr item "description" "")) (some (getStr item "content" ""))
    if fr.is_relevant then
      some (dictSet (dictSet item "relevance_score" (PyVal.int fr.relevance_score))
        "matched_keywords" (PyVal.strList fr.matched_keywords))
    else Option.none)

/-- `TaxReformContentFilter.filter_items_list` (content_filter.py:159-179):
keep relevant items, then `sort(key=…, reverse=True)` (stable). -/
def filter_items_list (items : List PyDict) : List PyDict :=
  sortDesc relevance_key (relevant_enriched items)

end TaxReformContentFilter

/-! ## `app/apis/search/__init__.py`

The data store is external: a stored feed row is a `SearchRow`, and the
PostgreSQL full-text predicate `to_tsvector(…) @@ to_tsquery(lang, q)` is an
oracle parameter `tsMatch` shared — exactly as the SQL is — by the result
query, the count query and the three facet queries. -/

namespace SearchApi

/-- One joined row of `rss_feed_items LEFT JOIN rss_sources` together with
the calling user's bookmark flag. -/
structure SearchRow where
  id : Int
  source_id : Int
  source_name : Option String
  title : String
  description : Option String
  content : Option String
  pub_date : Option Int
  priority : String
  relevance_score : Int
  keywords : List String
  category : String
  bookmarked : Bool
deriving DecidableEq

/-- `SearchFilters` request model. -/
structure SearchFilters where
  date_from : Option Int
  date_to : Option Int
  source_ids : Option (List Int)
  categories : Option (List String)
  priorities : Option (List String)
  min_relevance : Option Int
  keywords : Option (List String)
  exclude_keywords : Option (List String)
  bookmarked_only : Bool
deriving DecidableEq

/-- `SearchRequest` request model (result-shaping fields only). -/
structure SearchRequest where
  query : String
  filters : Option SearchFilters
  page : Nat
  per_page : Nat
  sort_by : String
  sort_order : String
  highlight : Bool
deriving DecidableEq

/-- `if request.filters.x:` — a Python optional list is truthy only when it
is present and non-empty. -/
def listCond (o : Option (List β)) (pred : List β → Bool) : Bool :=
  match o with
  | Option.none => true
  | some l => if l.isEmpty then true else pred l

/-- The conjunction of the optional filter conditions appended to the SQL
`WHERE` clause (search/__init__.py:178-228).  A SQL comparison against a
`NULL` `pub_date` matches no row. -/
def rowPasses (f : SearchFilters) (hasUser : Bool) (r : SearchRow) : Bool :=
  (match f.date_from with
   | Option.none => true
   | some d => match r.pub_date with | Option.none => false | some pd => decide (d ≤ pd)) &&
  (match f.date_to with
   | Option.none => true
   | some d => match r.pub_date with | Option.none => false | some pd => decide (pd ≤ d)) &&
  listCond f.source_ids (fun l => l.contains r.source_id) &&
  listCond f.categories (fun l => l.contains r.category) &&
  listCond f.priorities (fun l => l.contains r.priority) &&
  (match f.min_relevance with
   | Option.none => true
   | some m => decide (m ≤ r.relevance_score)) &&
  listCond f.keywords (fun l => l.any (fun kw => r.keywords.contains kw)) &&
  listCond f.exclude_keywords (fun l => !(l.any (fun kw => r.keywords.contains kw))) &&
  (if f.bookmarked_only && hasUser then r.bookmarked else true)

/-- The full match-and-filter predicate of the result and count queries. -/
def matchAndFilter (tsq : SearchRow → Bool) (filters : Option SearchFilters)
    (hasUser : Bool) (r : SearchRow) : Bool :=
  tsq r && (match filters with
            | Option.none => true
            | some f => rowPasses f hasUser r)

/-- The seven characters scrubbed by `sanitize_search_query`. -/
def scrub7 (c : Char) : Char :=
  if ['<', '>', '(', ')', '&', '|', '!'].contains c then ' ' else c

/-- Python `str.split()`: maximal runs of non-whitespace characters. -/
def splitWsAux (cur : List Char) : List Char → List (List Char)
  | [] => if cur.isEmpty then [] else [cur.reverse]
  | c :: rest =>
    if pyIsSpace c then
      if cur.isEmpty then splitWsAux [] rest else cur.reverse :: splitWsAux [] rest
    else splitWsAux (c :: cur) rest

def splitWs (l : List Char) : List (List Char) := splitWsAux [] l

/-- `' & '.join(words)`. -/
def joinAmp : List (List Char) → List Char
  | [] => []
  | [w] => w
  | w :: ws => w ++ ' ' :: '&' :: ' ' :: joinAmp ws

/-- `sanitize_search_query` (search/__init__.py:81-90): blank out the seven
special characters, split on whitespace, join the tokens with `' & '`
(the empty token list yields the empty string). -/
def sanitize_search_query (query : String) : String :=
  String.mk (joinAmp (splitWs (query.toList.map scrub7)))

/-- Fuelled SQL `GROUP BY key` with `COUNT(*)`: group keys in first-seen
order.  `fuel` only has to dominate the list length. -/
def groupCountsF [DecidableEq K] (key : α → K) : Nat → List α → List (K × Nat)
  | 0, _ => []
  | _, [] => []
  | fuel + 1, r :: rest =>
    (key r, 1 + rest.countP (fun x => decide (key x = key r))) ::
      groupCountsF key fuel (rest.filter (fun x => !decide (key x = key r)))

/-- `GROUP BY key … ORDER BY count DESC` over the rows selected by `tsq`. -/
def facet_counts [DecidableEq K] (key : SearchRow → K) (rows : List SearchRow)
    (tsq : SearchRow → Bool) : List (K × Nat) :=
  sortDesc (fun p => (p.2 : Int))
    (groupCountsF key (rows.filter tsq).length (rows.filter tsq))

/-- `get_search_facets` (search/__init__.py:316-357): category, source and
priority distributions, each computed from the text-match predicate alone. -/
def get_search_facets (rows : List SearchRow) (tsq : SearchRow → Bool) :
    List (String × Nat) × List (Option String × Nat) × List (String × Nat) :=
  (facet_counts (fun r => r.category) rows tsq,
   facet_counts (fun r => r.source_name) rows tsq,
   facet_counts (fun r => r.priority) rows tsq)

/-- The response fields the present claims are about; the ranked row list
itself depends on the external `ts_rank_cd` statistic and is not modelled. -/
structure SearchResponse where
  total_results : Nat
  page : Nat
  per_page : Nat
  total_pages : Nat
  facetCategories : List (String × Nat)
  facetSources : List (Option String × Nat)
  facetPriorities : List (String × Nat)
deriving DecidableEq

/-- Outcome of a FastAPI handler: a response or an `HTTPException`. -/
inductive HandlerResult (α : Type) where
  | ok (resp : α)
  | httpError (status : Nat) (detail : String)
deriving DecidableEq

/-- `search_content` (search/__init__.py:139-314).  `tsMatch q` is the
full-text predicate for the sanitized query `q`.  When the sanitized query
is empty the code raises `HTTPException(400, "Invalid search query")`
inside the `try` block; the blanket `except Exception` catches it and
re-raises `HTTPException(500, f"Search failed: {e}")`, so the caller sees a
500 whose detail embeds the original 400 — before any data-store query has
been executed. -/
def search_content (rows : List SearchRow) (tsMatch : String → SearchRow → Bool)
    (hasUser : Bool) (req : SearchRequest) : HandlerResult SearchResponse :=
  let sanitized := sanitize_search_query req.query
  if sanitized = "" then
    HandlerResult.httpError 500 "Search failed: 400: Invalid search query"
  else
    let total_results := (rows.filter (matchAndFilter (tsMatch sanitized) req.filters hasUser)).length
    let total_pages := (total_results + req.per_page - 1) / req.per_page
    let facets := get_search_facets rows (tsMatch sanitized)
    HandlerResult.ok
      { total_results := total_results, page := req.page, per_page := req.per_page,
        total_pages := total_pages, facetCategories := facets.1,
        facetSources := facets.2.1, facetPriorities := facets.2.2 }

end SearchApi

/-- The four keys written by `score_batch`'s `update`. -/
def four_keys : List String := ["relevance_score", "priority", "keywords", "category"]

/-- A stored high-priority row used to exercise the facet queries. -/
def facetRow1 : SearchApi.SearchRow :=
  ⟨1, 1, some "A", "ibs", Option.none, Option.none, Option.none, "high", 90, [], "general", false⟩

/-- A stored low-priority row used to exercise the facet queries. -/
def facetRow2 : SearchApi.SearchRow :=
  ⟨2, 2, some "B", "ibs", Option.none, Option.none, Option.none, "low", 10, [], "general", false⟩

/-- A filter set restricting the search to high-priority rows. -/
def facetFilters : SearchApi.SearchFilters :=
  ⟨Option.none, Option.none, Option.none, Option.none, some ["high"], Option.none,
   Option.none, Option.none, false⟩

/-- A search request for `"ibs"` with the high-priority filter. -/
def facetReq : SearchApi.SearchRequest :=
  ⟨"ibs", some facetFilters, 1, 20, "relevance", "desc", true⟩

/-! # Theorems -/

theorem pyStrip_eq_nil_iff (l : List Char) :
    pyStrip l = [] ↔ ∀ c ∈ l, pyIsSpace c = true := by
  unfold pyStrip
  rw [List.reverse_eq_nil_iff, List.dropWhile_eq_nil_iff]
  constructor
  · intro h c hc
    rw [← List.takeWhile_append_dropWhile pyIsSpace l] at hc
    rcases List.mem_append.mp hc with h1 | h2
    · exact List.mem_takeWhile_imp h1
    · exact h c (List.mem_reverse.mpr h2)
  · intro h c hc
    exact h c ((List.dropWhile_sublist pyIsSpace).subset (List.mem_reverse.mp hc))

theorem pyLowerChar_space {c : Char} (h : pyIsSpace c = true) : pyLowerChar c = c := by
  simp only [pyIsSpace, Bool.or_eq_true, beq_iff_eq] at h
  rcases h with ((((h | h) | h) | h) | h) | h <;> subst h <;> decide

theorem pyStrip_pyLower_nil {l : List Char} (h : pyStrip l = []) :
    pyStrip (pyLower l) = [] := by
  rw [pyStrip_eq_nil_iff] at h ⊢
  intro c hc
  rcases List.mem_map.mp hc with ⟨d, hd, rfl⟩
  rw [pyLowerChar_space (h d hd)]
  exact h d hd

theorem normalize_text_of_blank {s : String} (h : pyStrip s.toList = []) :
    TaxReformContentFilter.normalize_text s = [] := by
  unfold TaxReformContentFilter.normalize_text
  rw [pyStrip_pyLower_nil h]
  rfl

theorem countOcc_nil (kw : List Char) : TaxReformContentFilter.countOcc kw [] = 0 := rfl

theorem count_keyword_matches_of_blank {s : String} (h : pyStrip s.toList = [])
    (kws : List String) : TaxReformContentFilter.count_keyword_matches s kws = [] := by
  unfold TaxReformContentFilter.count_keyword_matches
  rw [normalize_text_of_blank h]
  simp only [countOcc_nil, List.filter_eq_nil_iff, List.mem_map]
  rintro a ⟨kw, _, rfl⟩
  simp [countOcc_nil]

theorem int_clamp_bounds (x : Int) : 0 ≤ max 0 (min 100 x) ∧ max 0 (min 100 x) ≤ 100 :=
  ⟨le_max_left 0 _, max_le (by norm_num) (min_le_left _ _)⟩

theorem cf_score_bounds (pm sm em : List (String × Nat)) :
    0 ≤ TaxReformContentFilter.calculate_relevance_score pm sm em ∧
      TaxReformContentFilter.calculate_relevance_score pm sm em ≤ 100 := by
  unfold TaxReformContentFilter.calculate_relevance_score
  exact int_clamp_bounds _

theorem filter_content_score_bounds (t : String) (d c : Option String) :
    0 ≤ (TaxReformContentFilter.filter_content t d c).relevance_score ∧
      (TaxReformContentFilter.filter_content t d c).relevance_score ≤ 100 := by
  by_cases hb : pyStrip (TaxReformContentFilter.admission_full_text t d c).toList = []
  · simp only [TaxReformContentFilter.filter_content]
    rw [if_pos hb]
    norm_num
  · simp only [TaxReformContentFilter.filter_content]
    rw [if_neg hb]
    exact cf_score_bounds _ _ _

/-- C1: both relevance scorers are clamped: `PriorityScorer.calculate_relevance_score`
returns a value in [0, 100] for every title/description/content, and
`TaxReformContentFilter.calculate_relevance_score` (also as it is used inside
`filter_content`) returns a value in [0, 100] for arbitrary primary, secondary
and exclusion match tables. -/
theorem claim_C1 (title description content title' : String)
    (description' content' : Option String) (pm sm em : List (String × Nat)) :
    PriorityScorer.calculate_relevance_score title description content ≤ 100 ∧
    0 ≤ TaxReformContentFilter.calculate_relevance_score pm sm em ∧
    TaxReformContentFilter.calculate_relevance_score pm sm em ≤ 100 ∧
    0 ≤ (TaxReformContentFilter.filter_content title' description' content').relevance_score ∧
    (TaxReformContentFilter.filter_content title' description' content').relevance_score ≤ 100 := by
  refine ⟨?_, (cf_score_bounds pm sm em).1, (cf_score_bounds pm sm em).2,
    (filter_content_score_bounds title' description' content').1,
    (filter_content_score_bounds title' description' content').2⟩
  unfold PriorityScorer.calculate_relevance_score
  exact Nat.min_le_right _ _

/-- C2: the admission verdict is relevant exactly when some primary keyword
matched and the admission score reaches the threshold 15; with no primary
match (in particular on blank input) the verdict is negative. -/
theorem claim_C2 (title : String) (description content : Option String) :
    (TaxReformContentFilter.filter_content title description content).is_relevant = true ↔
      (TaxReformContentFilter.count_keyword_matches
          (TaxReformContentFilter.admission_full_text title description content)
          TaxReformContentFilter.primary_keywords ≠ [] ∧
        TaxReformContentFilter.min_score_threshold ≤
          (TaxReformContentFilter.filter_content title description content).relevance_score) := by
  by_cases hb :
      pyStrip (TaxReformContentFilter.admission_full_text title description content).toList = []
  · have hpm := count_keyword_matches_of_blank hb TaxReformContentFilter.primary_keywords
    simp only [TaxReformContentFilter.filter_content]
    rw [if_pos hb]
    simp [hpm]
  · simp only [TaxReformContentFilter.filter_content]
    rw [if_neg hb]
    simp [List.length_pos, ge_iff_le, and_comm]

/-- C8: on non-blank input the verdict's `filter_reason` is populated exactly
when the verdict is negative, stating either that no primary (tax reform)
keyword was found, or else the concrete sub-threshold score. -/
theorem claim_C8 (title : String) (description content : Option String)
    (hnb : pyStrip
      (TaxReformContentFilter.admission_full_text title description content).toList ≠ []) :
    (TaxReformContentFilter.filter_content title description content).filter_reason =
      (if (TaxReformContentFilter.filter_content title description content).is_relevant then
        Option.none
      else if TaxReformContentFilter.count_keyword_matches
          (TaxReformContentFilter.admission_full_text title description content)
          TaxReformContentFilter.primary_keywords = [] then
        some "No tax reform keywords found"
      else
        some ("Low relevance score: " ++ toString
          (TaxReformContentFilter.filter_content title description content).relevance_score)) := by
  simp only [TaxReformContentFilter.filter_content, TaxReformContentFilter.min_score_threshold]
  rw [if_neg hnb]
  by_cases hp : TaxReformContentFilter.count_keyword_matches
      (TaxReformContentFilter.admission_full_text title description content)
      TaxReformContentFilter.primary_keywords = []
  · simp [hp]
  · have hlen : 0 < (TaxReformContentFilter.count_keyword_matches
        (TaxReformContentFilter.admission_full_text title description content)
        TaxReformContentFilter.primary_keywords).length := List.length_pos.mpr hp
    by_cases hs : (15 : Int) ≤ TaxReformContentFilter.calculate_relevance_score
        (TaxReformContentFilter.count_keyword_matches
          (TaxReformContentFilter.admission_full_text title description content)
          TaxReformContentFilter.primary_keywords)
        (TaxReformContentFilter.count_keyword_matches
          (TaxReformContentFilter.admission_full_text title description content)
          TaxReformContentFilter.secondary_keywords)
        (TaxReformContentFilter.count_keyword_matches
          (TaxReformContentFilter.admission_full_text title description content)
          TaxReformContentFilter.exclusion_keywords)
    · simp [hp, hlen, hs]
    · simp [hp, hlen, hs, not_le.mp hs]

theorem claim_C8_witness :
    (TaxReformContentFilter.filter_content "futebol" Option.none Option.none).filter_reason =
      (if (TaxReformContentFilter.filter_content "futebol" Option.none Option.none).is_relevant then
        Option.none
      else if TaxReformContentFilter.count_keyword_matches
          (TaxReformContentFilter.admission_full_text "futebol" Option.none Option.none)
          TaxReformContentFilter.primary_keywords = [] then
        some "No tax reform keywords found"
      else
        some ("Low relevance score: " ++ toString
          (TaxReformContentFilter.filter_content "futebol" Option.none Option.none).relevance_score)) :=
  claim_C8 "futebol" Option.none Option.none (by decide)

theorem insertDesc_perm (key : α → Int) (x : α) (l : List α) :
    (insertDesc key x l).Perm (x :: l) := by
  induction l with
  | nil => exact List.Perm.refl _
  | cons y ys ih =>
    unfold insertDesc
    split
    · exact (ih.cons y).trans (List.Perm.swap x y ys)
    · exact List.Perm.refl _

theorem sortDesc_perm (key : α → Int) (l : List α) : (sortDesc key l).Perm l := by
  induction l with
  | nil => exact List.Perm.refl _
  | cons x xs ih => exact (insertDesc_perm key x (sortDesc key xs)).trans (ih.cons x)

theorem insertDesc_pairwise (key : α → Int) (x : α) (l : List α)
    (h : l.Pairwise (fun a b => key b ≤ key a)) :
    (insertDesc key x l).Pairwise (fun a b => key b ≤ key a) := by
  induction l with
  | nil => simp [insertDesc]
  | cons y ys ih =>
    rw [List.pairwise_cons] at h
    unfold insertDesc
    split
    · rename_i hlt
      rw [List.pairwise_cons]
      refine ⟨fun z hz => ?_, ih h.2⟩
      rcases List.mem_cons.mp ((insertDesc_perm key x ys).mem_iff.mp hz) with rfl | hz'
      · exact le_of_lt hlt
      · exact h.1 z hz'
    · rename_i hge
      rw [List.pairwise_cons]
      refine ⟨fun z hz => ?_, List.pairwise_cons.mpr h⟩
      rcases List.mem_cons.mp hz with rfl | hz'
      · exact le_of_not_lt hge
      · exact le_trans (h.1 z hz') (le_of_not_lt hge)

theorem sortDesc_pairwise (key : α → Int) (l : List α) :
    (sortDesc key l).Pairwise (fun a b => key b ≤ key a) := by
  induction l with
  | nil => simp [sortDesc]
  | cons x xs ih => exact insertDesc_pairwise key x (sortDesc key xs) ih

theorem insertDesc_filter_key (key : α → Int) (x : α) (l : List α) (s : Int) :
    (insertDesc key x l).filter (fun a => decide (key a = s)) =
      if key x = s then x :: l.filter (fun a => decide (key a = s))
      else l.filter (fun a => decide (key a = s)) := by
  induction l with
  | nil => by_cases h : key x = s <;> simp [insertDesc, h]
  | cons y ys ih =>
    unfold insertDesc
    split
    · rename_i hlt
      by_cases hy : key y = s
      · have hx : key x ≠ s := by
          intro hx
          rw [hx, hy] at hlt
          exact lt_irrefl s hlt
        simp [List.filter_cons, hy, hx, ih]
      · simp [List.filter_cons, hy, ih]
    · by_cases hx : key x = s <;> simp [List.filter_cons, hx]

theorem sortDesc_filter_key (key : α → Int) (l : List α) (s : Int) :
    (sortDesc key l).filter (fun a => decide (key a = s)) =
      l.filter (fun a => decide (key a = s)) := by
  induction l with
  | nil => rfl
  | cons x xs ih =>
    unfold sortDesc
    rw [insertDesc_filter_key]
    by_cases hx : key x = s <;> simp [hx, List.filter_cons, ih]

/-- C6: the batch filter returns exactly the relevant items (each already
enriched with `relevance_score` and `matched_keywords` by the loop,
`relevant_enriched`), sorted by `relevance_score` descending, and for every
score value the items carrying that score appear in their original input
order (stability). -/
theorem claim_C6 (items : List PyDict) :
    (TaxReformContentFilter.filter_items_list items).Perm
        (TaxReformContentFilter.relevant_enriched items) ∧
    (TaxReformContentFilter.filter_items_list items).Pairwise
        (fun a b => TaxReformContentFilter.relevance_key b ≤
          TaxReformContentFilter.relevance_key a) ∧
    ∀ s : Int,
      (TaxReformContentFilter.filter_items_list items).filter
          (fun x => decide (TaxReformContentFilter.relevance_key x = s)) =
        (TaxReformContentFilter.relevant_enriched items).filter
          (fun x => decide (TaxReformContentFilter.relevance_key x = s)) := by
  unfold TaxReformContentFilter.filter_items_list
  exact ⟨sortDesc_perm _ _, sortDesc_pairwise _ _, fun s => sortDesc_filter_key _ _ s⟩

theorem find?_map_overwrite (m : PyDict) (k : String) (v : PyVal) :
    (m.map (fun p => if p.1 == k then (k, v) else p)).find? (fun p => p.1 == k) =
      if m.any (fun p => p.1 == k) then some (k, v) else Option.none := by
  induction m with
  | nil => rfl
  | cons p m ih =>
    by_cases hp : p.1 = k
    · simp [List.find?_cons, List.any_cons, hp]
    · have hpk : (p.1 == k) = false := beq_eq_false_iff_ne.mpr hp
      simp only [List.map_cons, hpk, if_false, Bool.false_eq_true, ite_false,
        List.find?_cons, List.any_cons, Bool.false_or]
      exact ih

theorem find?_map_overwrite_other (m : PyDict) (k k' : String) (v : PyVal) (h : k' ≠ k) :
    (m.map (fun p => if p.1 == k then (k, v) else p)).find? (fun p => p.1 == k') =
      m.find? (fun p => p.1 == k') := by
  induction m with
  | nil => rfl
  | cons p m ih =>
    rw [List.map_cons]
    cases hc : (p.1 == k) with
    | true =>
      rw [if_pos rfl]
      have hp : p.1 = k := beq_iff_eq.mp hc
      have hkk : (k == k') = false := beq_eq_false_iff_ne.mpr (Ne.symm h)
      have hpk' : (p.1 == k') = false := by
        rw [hp]
        exact hkk
      rw [List.find?_cons, List.find?_cons]
      simp only [hkk, hpk']
      exact ih
    | false =>
      rw [if_neg Bool.false_ne_true]
      rw [List.find?_cons, List.find?_cons]
      cases hc' : (p.1 == k') with
      | true => simp only [hc']
      | false =>
        simp only [hc']
        exact ih

theorem dictGet_dictSet_same (m : PyDict) (k : String) (v : PyVal) :
    dictGet (dictSet m k v) k = some v := by
  unfold dictGet dictSet
  by_cases h : m.any (fun p => p.1 == k)
  · rw [if_pos h, find?_map_overwrite, if_pos h]
    rfl
  · rw [if_neg h, List.find?_append]
    have hnone : m.find? (fun p => p.1 == k) = Option.none := by
      rw [List.find?_eq_none]
      intro x hx hxk
      exact h (List.any_eq_true.mpr ⟨x, hx, hxk⟩)
    rw [hnone]
    simp [List.find?_cons]

theorem dictGet_dictSet_other (m : PyDict) (k k' : String) (v : PyVal) (h : k' ≠ k) :
    dictGet (dictSet m k v) k' = dictGet m k' := by
  unfold dictGet dictSet
  by_cases hany : m.any (fun p => p.1 == k)
  · rw [if_pos hany, find?_map_overwrite_other m k k' v h]
  · rw [if_neg hany, List.find?_append]
    have hkk : (k == k') = false := beq_eq_false_iff_ne.mpr (Ne.symm h)
    simp [List.find?_cons, hkk]

theorem dictGet_dictSet_isSome (m : PyDict) (k k' : String) (v : PyVal) :
    (dictGet (dictSet m k v) k').isSome = true ↔
      ((dictGet m k').isSome = true ∨ k' = k) := by
  by_cases h : k' = k
  · subst h
    simp [dictGet_dictSet_same]
  · rw [dictGet_dictSet_other m k k' v h]
    simp [h]

/-- C10: `score_batch` maps each input dict to an enriched copy: same length
and order, every key outside the four computed ones keeps its value, the four
keys `relevance_score`, `priority`, `keywords`, `category` carry exactly the
computed enrichment values, and no other key appears.  (The loop works on
`item.copy()`, so in the model each output is a function of the unchanged
input dict.) -/
theorem claim_C10 (now : Int) (items : List PyDict) (i : Nat) (item : PyDict)
    (hi : items[i]? = some item) :
    (PriorityScorer.score_batch now items).length = items.length ∧
    ∃ out, (PriorityScorer.score_batch now items)[i]? = some out ∧
      (∀ k, k ∉ four_keys → dictGet out k = dictGet item k) ∧
      dictGet out "relevance_score" = some (PyVal.int
        (PriorityScorer.calculate_relevance_score (getStr item "title" "")
          (getStr item "description" "") (getStr item "content" ""))) ∧
      dictGet out "priority" = some (PyVal.str
        (PriorityScorer.calculate_priority (getStr item "title" "")
          (getStr item "description" "") (getStr item "content" "")
          (getInt item "source_credibility" 70) (getStr item "source_name" "")
          (getTime item "pub_date") now)) ∧
      dictGet out "keywords" = some (PyVal.strList
        (PriorityScorer.extract_keywords (getStr item "title" "")
          (getStr item "description" "") (getStr item "content" ""))) ∧
      dictGet out "category" = some (PyVal.str
        (PriorityScorer.categorize_content (getStr item "title" "")
          (getStr item "description" "") (getStr item "content" ""))) ∧
      (∀ k, (dictGet out k).isSome = true ↔
        ((dictGet item k).isSome = true ∨ k ∈ four_keys)) := by
  refine ⟨List.length_map _ _, PriorityScorer.enhance_item now item, ?_, ?_, ?_, ?_, ?_, ?_, ?_⟩
  · simp [PriorityScorer.score_batch, List.getElem?_map, hi]
  · intro k hk
    simp only [four_keys, List.mem_cons, List.not_mem_nil, or_false, not_or] at hk
    obtain ⟨h1, h2, h3, h4⟩ := hk
    simp only [PriorityScorer.enhance_item]
    rw [dictGet_dictSet_other _ _ _ _ h4, dictGet_dictSet_other _ _ _ _ h3,
      dictGet_dictSet_other _ _ _ _ h2, dictGet_dictSet_other _ _ _ _ h1]
  · simp only [PriorityScorer.enhance_item]
    rw [dictGet_dictSet_other _ _ _ _ (by decide : ("relevance_score" : String) ≠ "category"),
      dictGet_dictSet_other _ _ _ _ (by decide : ("relevance_score" : String) ≠ "keywords"),
      dictGet_dictSet_other _ _ _ _ (by decide : ("relevance_score" : String) ≠ "priority"),
      dictGet_dictSet_same]
  · simp only [PriorityScorer.enhance_item]
    rw [dictGet_dictSet_other _ _ _ _ (by decide : ("priority" : String) ≠ "category"),
      dictGet_dictSet_other _ _ _ _ (by decide : ("priority" : String) ≠ "keywords"),
      dictGet_dictSet_same]
  · simp only [PriorityScorer.enhance_item]
    rw [dictGet_dictSet_other _ _ _ _ (by decide : ("keywords" : String) ≠ "category"),
      dictGet_dictSet_same]
  · simp only [PriorityScorer.enhance_item]
    rw [dictGet_dictSet_same]
  · intro k
    simp only [PriorityScorer.enhance_item, dictGet_dictSet_isSome, four_keys,
      List.mem_cons, List.not_mem_nil, or_false]
    tauto

theorem claim_C10_witness :
    (PriorityScorer.score_batch 0 [[("title", PyVal.str "ibs")]]).length =
        ([[("title", PyVal.str "ibs")]] : List PyDict).length ∧
    ∃ out, (PriorityScorer.score_batch 0 [[("title", PyVal.str "ibs")]])[0]? = some out ∧
      (∀ k, k ∉ four_keys → dictGet out k = dictGet [("title", PyVal.str "ibs")] k) ∧
      dictGet out "relevance_score" = some (PyVal.int
        (PriorityScorer.calculate_relevance_score
          (getStr [("title", PyVal.str "ibs")] "title" "")
          (getStr [("title", PyVal.str "ibs")] "description" "")
          (getStr [("title", PyVal.str "ibs")] "content" ""))) ∧
      dictGet out "priority" = some (PyVal.str
        (PriorityScorer.calculate_priority
          (getStr [("title", PyVal.str "ibs")] "title" "")
          (getStr [("title", PyVal.str "ibs")] "description" "")
          (getStr [("title", PyVal.str "ibs")] "content" "")
          (getInt [("title", PyVal.str "ibs")] "source_credibility" 70)
          (getStr [("title", PyVal.str "ibs")] "source_name" "")
          (getTime [("title", PyVal.str "ibs")] "pub_date") 0)) ∧
      dictGet out "keywords" = some (PyVal.strList
        (PriorityScorer.extract_keywords
          (getStr [("title", PyVal.str "ibs")] "title" "")
          (getStr [("title", PyVal.str "ibs")] "description" "")
          (getStr [("title", PyVal.str "ibs")] "content" ""))) ∧
      dictGet out "category" = some (PyVal.str
        (PriorityScorer.categorize_content
          (getStr [("title", PyVal.str "ibs")] "title" "")
          (getStr [("title", PyVal.str "ibs")] "description" "")
          (getStr [("title", PyVal.str "ibs")] "content" ""))) ∧
      (∀ k, (dictGet out k).isSome = true ↔
        ((dictGet [("title", PyVal.str "ibs")] k).isSome = true ∨ k ∈ four_keys)) :=
  claim_C10 0 [[("title", PyVal.str "ibs")]] 0 [("title", PyVal.str "ibs")] rfl

/-- C3 counterexample: with relevance 60 (e.g. description `"simples nacional"`),
credibility 0, an unknown source and no publication date the final score is 42,
but the computed priority is `"low"`, not the claimed `"medium"` (42 < 50). -/
theorem claim_C3_counterexample :
    PriorityScorer.calculate_relevance_score "" "simples nacional" "" = 60 ∧
    PriorityScorer.priority_final_score "" "simples nacional" "" 0 "" Option.none 0 = 42 ∧
    PriorityScorer.calculate_priority "" "simples nacional" "" 0 "" Option.none 0 ≠ "medium" ∧
    PriorityScorer.calculate_priority "" "simples nacional" "" 0 "" Option.none 0 = "low" := by
  have hrel : PriorityScorer.calculate_relevance_score "" "simples nacional" "" = 60 := by decide
  have hm : PriorityScorer.source_multiplier_of "" = 1 := by
    unfold PriorityScorer.source_multiplier_of
    rw [show PriorityScorer.SOURCE_MULTIPLIERS.find?
      (fun p => isSubstr p.1.toList (pyLower "".toList)) = Option.none from by decide]
    norm_num
  have hf : PriorityScorer.priority_final_score "" "simples nacional" "" 0 ""
      Option.none 0 = 42 := by
    unfold PriorityScorer.priority_final_score PriorityScorer.credibility_factor
      PriorityScorer.recency_bonus_of
    rw [hrel, hm]
    norm_num
  have hp : PriorityScorer.calculate_priority "" "simples nacional" "" 0 ""
      Option.none 0 = "low" := by
    unfold PriorityScorer.calculate_priority
    rw [hf]
    norm_num
  refine ⟨hrel, hf, ?_, hp⟩
  rw [hp]
  decide

/-- C3 (amended): for any input of relevance 60, credibility 0, a source name
matching no multiplier-table entry and no publication date, the final score is
`60 × 1.0 × 0.7 = 42` and the returned priority is `"low"` (42 is below the
medium threshold 50). -/
theorem claim_C3 (title description content source_name : String) (now : Int)
    (hrel : PriorityScorer.calculate_relevance_score title description content = 60)
    (hsrc : PriorityScorer.SOURCE_MULTIPLIERS.find?
      (fun p => isSubstr p.1.toList (pyLower source_name.toList)) = Option.none) :
    PriorityScorer.priority_final_score title description content 0 source_name
        Option.none now = 42 ∧
    PriorityScorer.calculate_priority title description content 0 source_name
        Option.none now = "low" := by
  have hm : PriorityScorer.source_multiplier_of source_name = 1 := by
    unfold PriorityScorer.source_multiplier_of
    rw [hsrc]
    norm_num
  have hf : PriorityScorer.priority_final_score title description content 0 source_name
      Option.none now = 42 := by
    unfold PriorityScorer.priority_final_score PriorityScorer.credibility_factor
      PriorityScorer.recency_bonus_of
    rw [hrel, hm]
    norm_num
  refine ⟨hf, ?_⟩
  unfold PriorityScorer.calculate_priority
  rw [hf]
  norm_num

theorem claim_C3_witness :
    PriorityScorer.priority_final_score "" "simples nacional" "" 0 "x" Option.none 5 = 42 ∧
    PriorityScorer.calculate_priority "" "simples nacional" "" 0 "x" Option.none 5 = "low" :=
  claim_C3 "" "simples nacional" "" "x" 5 (by decide) (by decide)

theorem source_multiplier_nonneg (source_name : String) :
    0 ≤ PriorityScorer.source_multiplier_of source_name := by
  unfold PriorityScorer.source_multiplier_of
  cases h : PriorityScorer.SOURCE_MULTIPLIERS.find?
      (fun p => isSubstr p.1.toList (pyLower source_name.toList)) with
  | none => norm_num
  | some p =>
    have hm := List.mem_of_find?_eq_some h
    fin_cases hm <;> norm_num

theorem priority_final_score_mono (title description content source_name : String)
    (pub_date : Option Int) (now : Int) (c1 c2 : Int) (h : c1 ≤ c2) :
    PriorityScorer.priority_final_score title description content c1 source_name pub_date now ≤
      PriorityScorer.priority_final_score title description content c2 source_name pub_date now := by
  unfold PriorityScorer.priority_final_score
  have hcf : PriorityScorer.credibility_factor c1 ≤ PriorityScorer.credibility_factor c2 := by
    unfold PriorityScorer.credibility_factor
    have hc : (c1 : ℚ) ≤ (c2 : ℚ) := Int.cast_le.mpr h
    linarith
  have hnn : (0 : ℚ) ≤ (PriorityScorer.calculate_relevance_score title description content : ℚ) *
      PriorityScorer.source_multiplier_of source_name :=
    mul_nonneg (Nat.cast_nonneg _) (source_multiplier_nonneg source_name)
  have := mul_le_mul_of_nonneg_left hcf hnn
  linarith

/-- C4: `calculate_priority` is monotone in `source_credibility`: the
credibility factor `0.7 + (c/100) × 0.6` is monotone, and so is the resulting
priority level under the ordering low < medium < high. -/
theorem claim_C4 (title description content source_name : String) (pub_date : Option Int)
    (now : Int) (c1 c2 : Int) (h : c1 ≤ c2) :
    PriorityScorer.credibility_factor c1 ≤ PriorityScorer.credibility_factor c2 ∧
    PriorityScorer.priority_rank (PriorityScorer.calculate_priority title description content
        c1 source_name pub_date now) ≤
      PriorityScorer.priority_rank (PriorityScorer.calculate_priority title description content
        c2 source_name pub_date now) := by
  have hcf : PriorityScorer.credibility_factor c1 ≤ PriorityScorer.credibility_factor c2 := by
    unfold PriorityScorer.credibility_factor
    have hc : (c1 : ℚ) ≤ (c2 : ℚ) := Int.cast_le.mpr h
    linarith
  refine ⟨hcf, ?_⟩
  have hf := priority_final_score_mono title description content source_name pub_date now c1 c2 h
  simp only [PriorityScorer.calculate_priority]
  split_ifs <;> first | decide | (exfalso; linarith)

theorem claim_C4_witness :
    PriorityScorer.credibility_factor 0 ≤ PriorityScorer.credibility_factor 50 ∧
    PriorityScorer.priority_rank (PriorityScorer.calculate_priority "" "simples nacional" ""
        0 "" Option.none 0) ≤
      PriorityScorer.priority_rank (PriorityScorer.calculate_priority "" "simples nacional" ""
        50 "" Option.none 0) :=
  claim_C4 "" "simples nacional" "" "" Option.none 0 0 50 (by decide)

/-- C5: `categorize_content` always returns one of the five categories; it
returns the first category in the fixed order tax_reform, legislation,
economy, regulation whose keyword set has a substring match in the lowercased
combined text, and it returns `general` exactly when no category keyword
matches. -/
theorem claim_C5 (title description content : String) :
    (PriorityScorer.categorize_content title description content ∈
      ["tax_reform", "legislation", "economy", "regulation", "general"]) ∧
    PriorityScorer.categorize_content title description content =
      (if PriorityScorer.category_keyword_match PriorityScorer.KW_tax_reform
          title description content then "tax_reform"
      else if PriorityScorer.category_keyword_match PriorityScorer.KW_legislation
          title description content then "legislation"
      else if PriorityScorer.category_keyword_match PriorityScorer.KW_economy
          title description content then "economy"
      else if PriorityScorer.category_keyword_match PriorityScorer.KW_regulation
          title description content then "regulation"
      else "general") ∧
    (PriorityScorer.categorize_content title description content = "general" ↔
      (PriorityScorer.category_keyword_match PriorityScorer.KW_tax_reform
          title description content = false ∧
        PriorityScorer.category_keyword_match PriorityScorer.KW_legislation
          title description content = false ∧
        PriorityScorer.category_keyword_match PriorityScorer.KW_economy
          title description content = false ∧
        PriorityScorer.category_keyword_match PriorityScorer.KW_regulation
          title description content = false)) := by
  have e1 : (("tax_reform" : String) == "general") = false := by decide
  have e2 : (("legislation" : String) == "general") = false := by decide
  have e3 : (("economy" : String) == "general") = false := by decide
  have e4 : (("regulation" : String) == "general") = false := by decide
  have e5 : (("general" : String) == "general") = true := by decide
  unfold PriorityScorer.categorize_content PriorityScorer.CATEGORIES
  simp only [List.find?_cons, List.find?_nil, e1, e2, e3, e4, e5, Bool.not_false, Bool.not_true,
    Bool.true_and, Bool.false_and]
  cases h1 : PriorityScorer.category_keyword_match PriorityScorer.KW_tax_reform
      title description content <;>
    cases h2 : PriorityScorer.category_keyword_match PriorityScorer.KW_legislation
        title description content <;>
      cases h3 : PriorityScorer.category_keyword_match PriorityScorer.KW_economy
          title description content <;>
        cases h4 : PriorityScorer.category_keyword_match PriorityScorer.KW_regulation
            title description content <;>
          decide

theorem countP_add_filter_not (p : α → Bool) (l : List α) :
    l.countP p + (l.filter (fun a => !p a)).length = l.length := by
  induction l with
  | nil => rfl
  | cons a l ih =>
    by_cases h : p a <;> simp [List.countP_cons, List.filter_cons, h] <;> omega

theorem groupCountsF_sum [DecidableEq K] (key : α → K) :
    ∀ fuel (l : List α), l.length ≤ fuel →
      ((SearchApi.groupCountsF key fuel l).map (fun p => p.2)).sum = l.length := by
  intro fuel
  induction fuel with
  | zero =>
    intro l hl
    rw [List.length_eq_zero.mp (Nat.le_zero.mp hl)]
    rfl
  | succ fuel ih =>
    intro l hl
    cases l with
    | nil => rfl
    | cons r rest =>
      have hrest : (rest.filter (fun x => !decide (key x = key r))).length ≤ fuel := by
        have h1 := List.length_filter_le (fun x => !decide (key x = key r)) rest
        simp only [List.length_cons] at hl
        omega
      have hsplit := countP_add_filter_not (fun x => decide (key x = key r)) rest
      simp only [SearchApi.groupCountsF, List.map_cons, List.sum_cons, List.length_cons,
        ih _ hrest]
      omega

theorem facet_counts_sum [DecidableEq K] (key : SearchApi.SearchRow → K)
    (rows : List SearchApi.SearchRow) (tsq : SearchApi.SearchRow → Bool) :
    ((SearchApi.facet_counts key rows tsq).map (fun p => p.2)).sum =
      (rows.filter tsq).length := by
  unfold SearchApi.facet_counts
  have hperm := (sortDesc_perm (fun p : K × Nat => (p.2 : Int))
    (SearchApi.groupCountsF key (rows.filter tsq).length (rows.filter tsq))).map
      (fun p : K × Nat => p.2)
  rw [hperm.sum_eq]
  exact groupCountsF_sum key _ _ le_rfl

/-- C9 counterexample: two rows match the query `"ibs"`; the filter set keeps
only the high-priority one, so the reported total is 1, yet every facet
dimension is computed without the filters and its counts sum to 2. -/
theorem claim_C9_counterexample :
    SearchApi.search_content [facetRow1, facetRow2] (fun _ _ => true) true facetReq =
      SearchApi.HandlerResult.ok ⟨1, 1, 20, 1, [("general", 2)],
        [(some "A", 1), (some "B", 1)], [("high", 1), ("low", 1)]⟩ ∧
    (([("high", 1), ("low", 1)] : List (String × Nat)).map (fun p => p.2)).sum ≠ 1 := by
  constructor
  · decide
  · decide

/-- C9 (amended): the facet aggregates are computed from the text-match
predicate alone, ignoring the filter set, bookmark scoping and pagination:
each facet dimension's counts sum to the number of rows matching the text
query, and this equals the total match count used by the search exactly when
no filter set is supplied. -/
theorem claim_C9 (rows : List SearchApi.SearchRow) (tsq : SearchApi.SearchRow → Bool)
    (hasUser : Bool) :
    ((SearchApi.get_search_facets rows tsq).1.map (fun p => p.2)).sum =
        (rows.filter tsq).length ∧
    ((SearchApi.get_search_facets rows tsq).2.1.map (fun p => p.2)).sum =
        (rows.filter tsq).length ∧
    ((SearchApi.get_search_facets rows tsq).2.2.map (fun p => p.2)).sum =
        (rows.filter tsq).length ∧
    (rows.filter (SearchApi.matchAndFilter tsq Option.none hasUser)).length =
        (rows.filter tsq).length := by
  refine ⟨facet_counts_sum _ rows tsq, facet_counts_sum _ rows tsq,
    facet_counts_sum _ rows tsq, ?_⟩
  have hmf : rows.filter (SearchApi.matchAndFilter tsq Option.none hasUser) =
      rows.filter tsq :=
    List.filter_congr (fun a _ => by simp [SearchApi.matchAndFilter])
  rw [hmf]

/-- C7: `sanitize_search_query` scrubs `< > ( ) & | !` to spaces, splits on
whitespace and joins with `" & "`; when the result is empty the handler does
reject the request before any data-store query (the outcome is independent of
the stored rows), but the `HTTPException(400)` it raises is swallowed by the
blanket `except Exception` and re-surfaced as a 500 server error, not a 4xx
client error. -/
theorem claim_C7 (rows : List SearchApi.SearchRow)
    (tsMatch : String → SearchApi.SearchRow → Bool) (hasUser : Bool)
    (req : SearchApi.SearchRequest)
    (hq : SearchApi.sanitize_search_query req.query = "") :
    SearchApi.search_content rows tsMatch hasUser req =
      SearchApi.HandlerResult.httpError 500 "Search failed: 400: Invalid search query" := by
  unfold SearchApi.search_content
  rw [if_pos hq]

theorem claim_C7_witness :
    SearchApi.search_content [facetRow1] (fun _ _ => true) true
        ⟨"!!!", Option.none, 1, 20, "relevance", "desc", true⟩ =
      SearchApi.HandlerResult.httpError 500 "Search failed: 400: Invalid search query" :=
  claim_C7 [facetRow1] (fun _ _ => true) true
    ⟨"!!!", Option.none, 1, 20, "relevance", "desc", true⟩ (by decide)
